import Mathlib

/-!
Shallow embedding of `src/src/lib.rs` (rip8): fixed-width value types,
the instruction enumeration and its text rendering, the machine state,
the timer subsystem, and the instruction decoder.

Modelling conventions:
* `u8`/`u16`/`usize` values are `Nat`; all arithmetic the source performs on
  them is overflow-free on the given ranges, except where noted, so no
  explicit `% 2^w` is required (`saturating_sub` on `u16` is `Nat`
  subtraction, which saturates at zero the same way).
* A Rust panic (the `panic` / `unimplemented` macros, or an out-of-bounds
  slice index) aborts the process; it is totalised here as the
  `Except.error` branch carrying a `Panic` value, so that theorems can
  speak about which inputs reach a panic.  The Rust functions themselves
  return plain values (`Instruction`, `Register`), not `Result`.
* `Instant` timestamps are `Nat` microsecond counts; `Instant::now()`
  becomes an explicit `now` parameter.
* Rendered text (`fmt::Display`) is a list of character codes
  (`List Nat`, ASCII), so that string equality is list equality.
-/

set_option maxRecDepth 100000

/-- `struct Address { value: u16 }` (lib.rs:4-7). -/
structure Address where
  value : Nat
  deriving DecidableEq, Repr

/-- `Address::new` (lib.rs:10-14): packs three nibbles,
`((x as u16) << 8) | ((y as u16) << 4) | (z as u16)`.
For `u8` inputs the result is below `2^16`, so no truncation occurs. -/
def Address.new (x y z : Nat) : Address :=
  ⟨(x <<< 8) ||| (y <<< 4) ||| z⟩

/-- `struct Constant { value: u16 }` (lib.rs:23-26). -/
structure Constant where
  value : Nat
  deriving DecidableEq, Repr

/-- `Constant::new` (lib.rs:29-33): packs two nibbles,
`((x as u16) << 4) | (y as u16)`. -/
def Constant.new (x y : Nat) : Constant :=
  ⟨(x <<< 4) ||| y⟩

/-- `enum Register` (lib.rs:44-62): sixteen discriminants `V0 = 0 .. VF = 15`. -/
inductive Register where
  | V0 | V1 | V2 | V3 | V4 | V5 | V6 | V7
  | V8 | V9 | VA | VB | VC | VD | VE | VF
  deriving DecidableEq, Repr

/-- The numeric discriminant of a register (the `*self as u32` cast used by
the `Display` impl, lib.rs:90). -/
def Register.toNat : Register → Nat
  | .V0 => 0 | .V1 => 1 | .V2 => 2 | .V3 => 3
  | .V4 => 4 | .V5 => 5 | .V6 => 6 | .V7 => 7
  | .V8 => 8 | .V9 => 9 | .VA => 10 | .VB => 11
  | .VC => 12 | .VD => 13 | .VE => 14 | .VF => 15

/-- `Register::new` (lib.rs:64-86): maps `0..=15` to the corresponding
discriminant; the catch-all arm raises `unimplemented` (a panic), modelled
as `none`. -/
def Register.new (x : Nat) : Option Register :=
  match x with
  | 0 => some .V0 | 1 => some .V1 | 2 => some .V2 | 3 => some .V3
  | 4 => some .V4 | 5 => some .V5 | 6 => some .V6 | 7 => some .V7
  | 8 => some .V8 | 9 => some .V9 | 10 => some .VA | 11 => some .VB
  | 12 => some .VC | 13 => some .VD | 14 => some .VE | 15 => some .VF
  | _ => none

/-- `enum Instruction` (lib.rs:94-130). -/
inductive Instruction where
  | SysCall (a : Address)
  | ClearScreen
  | Return
  | Jump (a : Address)
  | Call (a : Address)
  | SkipIfEqual (x : Register) (c : Constant)
  | SkipIfNotEqual (x : Register) (c : Constant)
  | SkipIfRegistersEqual (x y : Register)
  | SetImmediate (x : Register) (c : Constant)
  | AddImmediate (x : Register) (c : Constant)
  | SetRegister (x y : Register)
  | OrRegister (x y : Register)
  | AndRegister (x y : Register)
  | XorRegister (x y : Register)
  | AdcRegister (x y : Register)
  | SwbRegister (x y : Register)
  | ShrRegister (x y : Register)
  | ReverseSwbRegister (x y : Register)
  | ShlRegister (x y : Register)
  | SkipIfRegistersNotEqual (x y : Register)
  | StoreAddress (a : Address)
  | JumpOffset (a : Address)
  | StoreRandom (x : Register) (c : Constant)
  | DrawSprite (x y : Register) (c : Constant)
  | SkipIfPressed (x : Register)
  | SkipIfNotPressed (x : Register)
  | SetFromDelay (x : Register)
  | WaitKeyPress (x : Register)
  | SetToDelay (x : Register)
  | SetToSound (x : Register)
  | AddAddress (x : Register)
  | SetAddressToSprite (x : Register)
  | StoreBCD (x : Register)
  | StoreRegisters (x : Register)
  | LoadRegisters (x : Register)
  deriving DecidableEq, Repr

/-- `struct MachineState` (lib.rs:175-181): `registers: [u8; 16]` is a
function out of `Fin 16`. -/
structure MachineState where
  ip : Nat
  sp : Nat
  finished : Bool
  addr : Address
  registers : Fin 16 → Nat

/-- `MachineState::new` (lib.rs:183-193). -/
def MachineState.new : MachineState :=
  { ip := 0x200, sp := 0, finished := false
    addr := ⟨0⟩, registers := fun _ => 0 }

/-- `struct Timers` (lib.rs:195-199): `delay`/`sound` are `u16`; the
`Instant` field is a microsecond timestamp. -/
structure Timers where
  delay : Nat
  sound : Nat
  last_update : Nat

/-- `Timers::new` (lib.rs:202-208), with `Instant::now()` passed in. -/
def Timers.new (now : Nat) : Timers :=
  ⟨0, 0, now⟩

/-- `Timers::update` (lib.rs:210-218).  `diff.subsec_micros()` is the
sub-second part of the elapsed microseconds, i.e. `diff % 1000000`; the
threshold in the source is `1660` microseconds.  `saturating_sub` on `u16`
is `Nat` subtraction (both saturate at zero and never wrap). -/
def Timers.update (t : Timers) (now : Nat) : Timers :=
  let diff := now - t.last_update
  if diff % 1000000 > 1660 then
    { delay := t.delay - 1, sound := t.sound - 1, last_update := now }
  else t

/-- Repeated `Timers::update` calls at the given sequence of clock
readings (the run loop polling the timer subsystem). -/
def Timers.run (t : Timers) (times : List Nat) : Timers :=
  times.foldl Timers.update t

/-- The panics the embedded code can raise. -/
inductive Panic where
  /-- The decoder's catch-all arm (lib.rs:252-255): message carries the
  offending address and the four raw nibbles. -/
  | unknownOpcode (addr a b c d : Nat)
  /-- `Register::new`'s catch-all `unimplemented` arm (lib.rs:83). -/
  | unimplementedRegister
  /-- Out-of-bounds slice index on instruction fetch (lib.rs:222-225). -/
  | indexOutOfBounds
  deriving DecidableEq, Repr

instance {ε α : Type} [DecidableEq ε] [DecidableEq α] :
    DecidableEq (Except ε α) := fun x y =>
  match x, y with
  | .ok a, .ok b => decidable_of_iff (a = b) (by simp)
  | .error a, .error b => decidable_of_iff (a = b) (by simp)
  | .ok _, .error _ => isFalse (by simp)
  | .error _, .ok _ => isFalse (by simp)

/-- `Register::new` lifted into the decode result: its panic arm becomes
`Panic.unimplementedRegister`. -/
def regE (x : Nat) : Except Panic Register :=
  match Register.new x with
  | some r => .ok r
  | none => .error .unimplementedRegister

/-- The `match a { ... }` body of `decode_instruction` (lib.rs:226-256),
with the Rust match arms translated in order.  Note on family `0xd`
(lib.rs:250): the source writes `Register::new(d)` in the third operand
slot although the `DrawSprite` variant declares a `Constant` there (the
declarations disagree, so the file does not type-check as written); the
value passes through `Register::new d` (keeping its panic path) and lands
in the `Constant` field with the register's numeric value `d`. -/
def decode_core (ip a b c d : Nat) : Except Panic Instruction :=
  if a = 0x0 ∧ b = 0x0 ∧ c = 0xe ∧ d = 0x0 then .ok .ClearScreen
  else if a = 0x0 ∧ b = 0x0 ∧ c = 0xe ∧ d = 0xe then .ok .Return
  else if a = 0x0 then .ok (.SysCall (Address.new b c d))
  else if a = 0x1 then .ok (.Jump (Address.new b c d))
  else if a = 0x2 then .ok (.Call (Address.new b c d))
  else if a = 0x3 then
    (regE b).bind fun rb => .ok (.SkipIfEqual rb (Constant.new c d))
  else if a = 0x4 then
    (regE b).bind fun rb => .ok (.SkipIfNotEqual rb (Constant.new c d))
  else if a = 0x5 ∧ d = 0x0 then
    (regE b).bind fun rb => (regE c).bind fun rc =>
      .ok (.SkipIfRegistersEqual rb rc)
  else if a = 0x6 then
    (regE b).bind fun rb => .ok (.SetImmediate rb (Constant.new c d))
  else if a = 0x7 then
    (regE b).bind fun rb => .ok (.AddImmediate rb (Constant.new c d))
  else if a = 0x8 ∧ d = 0x0 then
    (regE b).bind fun rb => (regE c).bind fun rc => .ok (.SetRegister rb rc)
  else if a = 0x8 ∧ d = 0x1 then
    (regE b).bind fun rb => (regE c).bind fun rc => .ok (.OrRegister rb rc)
  else if a = 0x8 ∧ d = 0x2 then
    (regE b).bind fun rb => (regE c).bind fun rc => .ok (.AndRegister rb rc)
  else if a = 0x8 ∧ d = 0x3 then
    (regE b).bind fun rb => (regE c).bind fun rc => .ok (.XorRegister rb rc)
  else if a = 0x8 ∧ d = 0x4 then
    (regE b).bind fun rb => (regE c).bind fun rc => .ok (.AdcRegister rb rc)
  else if a = 0x8 ∧ d = 0x5 then
    (regE b).bind fun rb => (regE c).bind fun rc => .ok (.SwbRegister rb rc)
  else if a = 0x8 ∧ d = 0x6 then
    (regE b).bind fun rb => (regE c).bind fun rc => .ok (.ShrRegister rb rc)
  else if a = 0x8 ∧ d = 0x7 then
    (regE b).bind fun rb => (regE c).bind fun rc =>
      .ok (.ReverseSwbRegister rb rc)
  else if a = 0x8 ∧ d = 0xe then
    (regE b).bind fun rb => (regE c).bind fun rc => .ok (.ShlRegister rb rc)
  else if a = 0x9 ∧ d = 0x0 then
    (regE b).bind fun rb => (regE c).bind fun rc =>
      .ok (.SkipIfRegistersNotEqual rb rc)
  else if a = 0xa then .ok (.StoreAddress (Address.new b c d))
  else if a = 0xb then .ok (.JumpOffset (Address.new b c d))
  else if a = 0xc then
    (regE b).bind fun rb => .ok (.StoreRandom rb (Constant.new c d))
  else if a = 0xd then
    (regE b).bind fun rb => (regE c).bind fun rc => (regE d).bind fun rd =>
      .ok (.DrawSprite rb rc ⟨rd.toNat⟩)
  else if a = 0xe ∧ c = 0x9 ∧ d = 0xe then
    (regE b).bind fun rb => .ok (.SkipIfPressed rb)
  else .error (.unknownOpcode ip a b c d)

/-- `decode_instruction` (lib.rs:221-257): fetches the two bytes at
`state.ip` (an out-of-range index panics), splits them into the four
nibbles `a = hi >> 4`, `b = hi & 0x0f`, `c = lo >> 4`, `d = lo & 0x0f`,
and dispatches on the pattern. -/
def decode_instruction (state : MachineState) (memory : List Nat) :
    Except Panic Instruction :=
  match memory[state.ip]?, memory[state.ip + 1]? with
  | some hi, some lo =>
      decode_core state.ip ((hi &&& 0xf0) >>> 4) (hi &&& 0x0f)
        ((lo &&& 0xf0) >>> 4) (lo &&& 0x0f)
  | _, _ => .error .indexOutOfBounds

/-- A machine state with `ip = 0` and everything else zeroed, used to
feed the decoder a two-byte memory image directly. -/
def stateAt0 : MachineState :=
  ⟨0, 0, false, ⟨0⟩, fun _ => 0⟩

/-- Decode the single instruction word `hi lo`. -/
def decodeAt (hi lo : Nat) : Except Panic Instruction :=
  decode_instruction stateAt0 [hi, lo]

/-- Total helper (not part of the source) giving the register with a given
index, used to state expected decode results. -/
def regOfNat : Nat → Register
  | 0 => .V0 | 1 => .V1 | 2 => .V2 | 3 => .V3
  | 4 => .V4 | 5 => .V5 | 6 => .V6 | 7 => .V7
  | 8 => .V8 | 9 => .V9 | 10 => .VA | 11 => .VB
  | 12 => .VC | 13 => .VD | 14 => .VE | _ => .VF

/-! ### Text rendering (`fmt::Display`, lib.rs:17-21, 36-40, 88-92, 132-173)

Rendered text is a list of ASCII character codes; each line of the
instruction renderer is annotated with the format string it transcribes.
Codes used: space 32, comma 44, `0` 48, `A` 65, `B` 66, `C` 67, `D` 68,
`E` 69, `F` 70, `H` 72, `I` 73, `J` 74, `K` 75, `L` 76, `N` 78, `O` 79,
`P` 80, `R` 82, `S` 83, `T` 84, `U` 85, `V` 86, `W` 87, `X` 88, `Y` 89,
`[` 91, `]` 93. -/

/-- Code of one uppercase hex digit (`{:X}` of a value below 16). -/
def hexDigitN (n : Nat) : Nat :=
  if n < 10 then 48 + n else 55 + n

/-- All uppercase hex digits of a number, most significant first
(fuel-structured so the kernel can evaluate it). -/
def hexCharsAux : Nat → Nat → List Nat
  | 0, _ => []
  | fuel + 1, n =>
    if n < 16 then [hexDigitN n]
    else hexCharsAux fuel (n / 16) ++ [hexDigitN (n % 16)]

/-- Uppercase hex rendering of `n` with no leading zeros. -/
def hexChars (n : Nat) : List Nat := hexCharsAux (n + 1) n

/-- `{:0wX}`: uppercase hex left-padded with `0` to a minimum width. -/
def rhexPad (w n : Nat) : List Nat :=
  List.replicate (w - (hexChars n).length) 48 ++ hexChars n

/-- `Display for Address` (lib.rs:17-21): `{:03X}`. -/
def Address.render (a : Address) : List Nat := rhexPad 3 a.value

/-- `Display for Constant` (lib.rs:36-40): `{:02X}`. -/
def Constant.render (c : Constant) : List Nat := rhexPad 2 c.value

/-- `Display for Register` (lib.rs:88-92): `V{:X}` of the discriminant,
which is always below 16, hence a single digit. -/
def Register.render (r : Register) : List Nat := [86, hexDigitN r.toNat]

/-- `Display for Instruction` (lib.rs:132-173).  The final `_` arm of the
source raises `unimplemented`, but every variant is covered by a named
arm, so it is unreachable and needs no error channel here. -/
def Instruction.render : Instruction → List Nat
  | .ClearScreen => [67, 76, 83]                            -- "CLS"
  | .Return => [82, 69, 84]                                 -- "RET"
  | .SysCall a => [83, 89, 83, 32] ++ a.render              -- "SYS {}"
  | .Jump a => [74, 80, 32] ++ a.render                     -- "JP {}"
  | .Call a => [67, 65, 76, 76, 32] ++ a.render             -- "CALL {}"
  | .SkipIfEqual x c =>                                     -- "SE {}, {}"
      [83, 69, 32] ++ x.render ++ [44, 32] ++ c.render
  | .SkipIfNotEqual x c =>                                  -- "SNE {}, {}"
      [83, 78, 69, 32] ++ x.render ++ [44, 32] ++ c.render
  | .SkipIfRegistersEqual x y =>                            -- "SE {}, {}"
      [83, 69, 32] ++ x.render ++ [44, 32] ++ y.render
  | .SetImmediate x c =>                                    -- "LD {}, {}"
      [76, 68, 32] ++ x.render ++ [44, 32] ++ c.render
  | .AddImmediate x c =>                                    -- "ADD {}, {}"
      [65, 68, 68, 32] ++ x.render ++ [44, 32] ++ c.render
  | .SetRegister x y =>                                     -- "LD {}, {}"
      [76, 68, 32] ++ x.render ++ [44, 32] ++ y.render
  | .OrRegister x y =>                                      -- "OR {}, {}"
      [79, 82, 32] ++ x.render ++ [44, 32] ++ y.render
  | .AndRegister x y =>                                     -- "AND {}, {}"
      [65, 78, 68, 32] ++ x.render ++ [44, 32] ++ y.render
  | .XorRegister x y =>                                     -- "XOR {}, {}"
      [88, 79, 82, 32] ++ x.render ++ [44, 32] ++ y.render
  | .AdcRegister x y =>                                     -- "ADD {}, {}"
      [65, 68, 68, 32] ++ x.render ++ [44, 32] ++ y.render
  | .SwbRegister x y =>                                     -- "SUB {}, {}"
      [83, 85, 66, 32] ++ x.render ++ [44, 32] ++ y.render
  | .ShrRegister x y =>                                     -- "SHR {}, {}"
      [83, 72, 82, 32] ++ x.render ++ [44, 32] ++ y.render
  | .ReverseSwbRegister x y =>                              -- "SUBN {}, {}"
      [83, 85, 66, 78, 32] ++ x.render ++ [44, 32] ++ y.render
  | .ShlRegister x y =>                                     -- "SHL {}, {}"
      [83, 72, 76, 32] ++ x.render ++ [44, 32] ++ y.render
  | .SkipIfRegistersNotEqual x y =>                         -- "SNE {}, {}"
      [83, 78, 69, 32] ++ x.render ++ [44, 32] ++ y.render
  | .StoreAddress a =>                                      -- "LD I, {}"
      [76, 68, 32, 73, 44, 32] ++ a.render
  | .JumpOffset a =>                                        -- "JP V0, {}"
      [74, 80, 32, 86, 48, 44, 32] ++ a.render
  | .StoreRandom x c =>                                     -- "RND {}, {}"
      [82, 78, 68, 32] ++ x.render ++ [44, 32] ++ c.render
  | .DrawSprite x y c =>                                    -- "DRW {}, {}, {}"
      [68, 82, 87, 32] ++ x.render ++ [44, 32] ++ y.render ++ [44, 32]
        ++ c.render
  | .SkipIfPressed x => [83, 75, 80, 32] ++ x.render        -- "SKP {}"
  | .SkipIfNotPressed x =>                                  -- "SKNP {}"
      [83, 75, 78, 80, 32] ++ x.render
  | .SetFromDelay x =>                                      -- "LD {}, DT"
      [76, 68, 32] ++ x.render ++ [44, 32, 68, 84]
  | .WaitKeyPress x =>                                      -- "LD {}, K"
      [76, 68, 32] ++ x.render ++ [44, 32, 75]
  | .SetToDelay x =>                                        -- "LD DT, {}"
      [76, 68, 32, 68, 84, 44, 32] ++ x.render
  | .SetToSound x =>                                        -- "LD ST, {}"
      [76, 68, 32, 83, 84, 44, 32] ++ x.render
  | .AddAddress x =>                                        -- "ADD I, {}"
      [65, 68, 68, 32, 73, 44, 32] ++ x.render
  | .SetAddressToSprite x =>                                -- "LD F, {}"
      [76, 68, 32, 70, 44, 32] ++ x.render
  | .StoreBCD x =>                                          -- "LD B, {}"
      [76, 68, 32, 66, 44, 32] ++ x.render
  | .StoreRegisters x =>                                    -- "LD [I], {}"
      [76, 68, 32, 91, 73, 93, 44, 32] ++ x.render
  | .LoadRegisters x =>                                     -- "LD {}, [I]"
      [76, 68, 32] ++ x.render ++ [44, 32, 91, 73, 93]

/-- Operand values within their documented ranges: addresses are 12-bit,
constants 8-bit (registers are in range by construction). -/
def Instruction.Valid : Instruction → Prop
  | .SysCall a | .Jump a | .Call a | .StoreAddress a | .JumpOffset a =>
      a.value < 4096
  | .SkipIfEqual _ c | .SkipIfNotEqual _ c | .SetImmediate _ c
  | .AddImmediate _ c | .StoreRandom _ c | .DrawSprite _ _ c =>
      c.value < 256
  | _ => True

/-! ### Spec-modelled executor fragment

The repository's `src` contains no Executor: `MachineState` is declared
and `decode_instruction` consumes it, but no code applies an
`Instruction` to the state.  The subtract-with-borrow semantics is
therefore modelled from the spec. -/

/-- The register-file slot of a register. -/
def Register.idx (r : Register) : Fin 16 :=
  ⟨r.toNat, by cases r <;> decide⟩

/-- Modelled from the spec: the Executor for `SwbRegister` (missing from
src).  §4.2: "Subtract-with-borrow (both directions): result wraps modulo
256; VF is set to 1 if no borrow occurred (minuend ≥ subtrahend), else
0".  The destination register receives the wrapped difference and `VF`
receives the flag. -/
def execSwb (s : MachineState) (x y : Register) : MachineState :=
  let vx := s.registers x.idx
  let vy := s.registers y.idx
  let res := (vx + 256 - vy) % 256
  let flag : Nat := if vy ≤ vx then 1 else 0
  { s with registers := fun i =>
      if i = Register.VF.idx then flag
      else if i = x.idx then res
      else s.registers i }

/-- A machine state whose registers `V1`/`V2` hold the given bytes. -/
def twoRegState (v1 v2 : Nat) : MachineState :=
  { MachineState.new with registers := fun i =>
      if i = (1 : Fin 16) then v1 else if i = (2 : Fin 16) then v2 else 0 }

/-! ### Helper lemmas -/

theorem Timers.update_delay_le (t : Timers) (now : Nat) :
    (t.update now).delay ≤ t.delay := by
  simp only [Timers.update]
  split <;> simp

theorem Timers.update_sound_le (t : Timers) (now : Nat) :
    (t.update now).sound ≤ t.sound := by
  simp only [Timers.update]
  split <;> simp

theorem Timers.run_delay_le (t : Timers) (ts : List Nat) :
    (t.run ts).delay ≤ t.delay := by
  induction ts generalizing t with
  | nil => simp [Timers.run]
  | cons a ts ih =>
      exact le_trans (ih (t.update a)) (t.update_delay_le a)

theorem Timers.run_sound_le (t : Timers) (ts : List Nat) :
    (t.run ts).sound ≤ t.sound := by
  induction ts generalizing t with
  | nil => simp [Timers.run]
  | cons a ts ih =>
      exact le_trans (ih (t.update a)) (t.update_sound_le a)

theorem regE_eq : ∀ x < 16, regE x = .ok (regOfNat x) := by decide

theorem nib_hi : ∀ x < 16, ∀ b < 16, ((16 * x + b) &&& 0xf0) >>> 4 = x := by
  decide

theorem nib_lo : ∀ x < 16, ∀ b < 16, (16 * x + b) &&& 0x0f = b := by decide

theorem addr_new_eq :
    ∀ x < 16, ∀ y < 16, ∀ z < 16,
      Address.new x y z = ⟨256 * x + 16 * y + z⟩ := by decide

theorem const_new_eq :
    ∀ x < 16, ∀ y < 16, Constant.new x y = ⟨16 * x + y⟩ := by decide

/-- Feeding the word with nibbles `(x, b, c, d)` to the decoder reduces to
the dispatch body. -/
theorem decodeAt_eq (x b c d : Nat) (hx : x < 16) (hb : b < 16)
    (hc : c < 16) (hd : d < 16) :
    decodeAt (16 * x + b) (16 * c + d) = decode_core 0 x b c d := by
  unfold decodeAt decode_instruction
  simp [stateAt0, nib_hi x hx b hb, nib_lo x hx b hb,
    nib_hi c hc d hd, nib_lo c hc d hd]

/-! ### Claim theorems -/

/-- C3: over exactly 1000 ms, with the advance call invoked frequently
(every 5 ms here), a counter initialized to 200 does NOT end at 140: the
source's threshold is 1660 microseconds (lib.rs:213), about 602 Hz rather
than 60 Hz, so every one of the 200 calls decrements and both counters
saturate to 0.  A single update after 1661 elapsed microseconds already
decrements, though the claimed period is ~16.6 ms. -/
theorem timer_decay_failing_input :
    (Timers.run ⟨200, 200, 0⟩
        ((List.range 200).map fun k => 5000 * (k + 1))).delay = 0 ∧
    (Timers.run ⟨200, 200, 0⟩
        ((List.range 200).map fun k => 5000 * (k + 1))).sound = 0 ∧
    (Timers.update ⟨200, 200, 0⟩ 1661).delay = 199 := by
  decide

/-- C4: each advance step either leaves a counter unchanged or decrements
it by one, saturating at zero (never wrapping), and any update sequence
started from counters in the 8-bit range keeps both in the 8-bit range
(the struct fields are `u16` in the source, but reachable values stay
within 8 bits). -/
theorem timers_byte_range_saturate :
    (∀ (t : Timers) (now : Nat),
        ((t.update now).delay = t.delay - 1 ∨ (t.update now).delay = t.delay)
          ∧
        ((t.update now).sound = t.sound - 1 ∨ (t.update now).sound = t.sound)
          ∧ (t.delay = 0 → (t.update now).delay = 0)
          ∧ (t.sound = 0 → (t.update now).sound = 0)) ∧
    (∀ (t : Timers) (ts : List Nat), t.delay ≤ 255 → t.sound ≤ 255 →
        (t.run ts).delay ≤ 255 ∧ (t.run ts).sound ≤ 255) := by
  constructor
  · intro t now
    simp only [Timers.update]
    split <;> simp_all
  · intro t ts hd hs
    exact ⟨le_trans (t.run_delay_le ts) hd, le_trans (t.run_sound_le ts) hs⟩

/-- C4 witness: instantiation at a concrete timer and schedule. -/
theorem timers_byte_range_saturate_witness :
    (Timers.run ⟨255, 10, 0⟩ [2000, 4000]).delay ≤ 255 ∧
    (Timers.run ⟨255, 10, 0⟩ [2000, 4000]).sound ≤ 255 :=
  timers_byte_range_saturate.2 ⟨255, 10, 0⟩ [2000, 4000]
    (by decide) (by decide)

/-- C5: within opcode family 0x0 (high nibble of the first byte is 0, so
the first byte equals the nibble `b`), `b=0,c=E,d=0` decodes to
clear-screen, `b=0,c=E,d=E` to return-from-subroutine, and every other
combination to a legacy system call whose address packs the nibbles
`(b, c, d)`. -/
theorem decode_family0_tiebreak :
    ∀ b < 16, ∀ c < 16, ∀ d < 16,
      decodeAt b (16 * c + d) =
        if b = 0 ∧ c = 0xe ∧ d = 0 then .ok .ClearScreen
        else if b = 0 ∧ c = 0xe ∧ d = 0xe then .ok .Return
        else .ok (.SysCall ⟨256 * b + 16 * c + d⟩) := by
  intro b hb c hc d hd
  have h := decodeAt_eq 0 b c d (by norm_num) hb hc hd
  rw [show 16 * 0 + b = b by omega] at h
  rw [h]
  unfold decode_core
  norm_num
  split_ifs <;> simp_all [addr_new_eq b hb c hc d hd]

/-- C5 witness: `00E0` is clear-screen, `00EE` is return, `0123` is a
system call to address `0x123`. -/
theorem decode_family0_tiebreak_witness :
    decodeAt 0 (16 * 0xe + 0) = .ok .ClearScreen ∧
    decodeAt 0 (16 * 0xe + 0xe) = .ok .Return ∧
    decodeAt 1 (16 * 2 + 3) = .ok (.SysCall ⟨0x123⟩) :=
  ⟨decode_family0_tiebreak 0 (by decide) 0xe (by decide) 0 (by decide),
   decode_family0_tiebreak 0 (by decide) 0xe (by decide) 0xe (by decide),
   decode_family0_tiebreak 1 (by decide) 2 (by decide) 3 (by decide)⟩

/-- C6: packing three nibbles yields `(x<<8)|(y<<4)|z`, i.e. the value
`256*x + 16*y + z`, which is at most 0xFFF; packing two nibbles yields
`(x<<4)|y = 16*x + y`, at most 0xFF. -/
theorem address_constant_packing :
    (∀ x < 16, ∀ y < 16, ∀ z < 16,
        (Address.new x y z).value = 256 * x + 16 * y + z ∧
        (Address.new x y z).value ≤ 0xfff) ∧
    (∀ x < 16, ∀ y < 16,
        (Constant.new x y).value = 16 * x + y ∧
        (Constant.new x y).value ≤ 0xff) := by
  constructor
  · decide
  · decide

/-- C6 witness: instantiation at `(1, 2, 3)` and `(0xA, 0xB)`. -/
theorem address_constant_packing_witness :
    ((Address.new 1 2 3).value = 256 * 1 + 16 * 2 + 3 ∧
      (Address.new 1 2 3).value ≤ 0xfff) ∧
    ((Constant.new 0xa 0xb).value = 16 * 0xa + 0xb ∧
      (Constant.new 0xa 0xb).value ≤ 0xff) :=
  ⟨address_constant_packing.1 1 (by decide) 2 (by decide) 3 (by decide),
   address_constant_packing.2 0xa (by decide) 0xb (by decide)⟩

/-- C7: decoding depends only on the program counter and the two bytes it
addresses: two runs whose states share the program counter and whose
memories agree on those two positions (registers, stack pointer, halted
flag, address register, and the rest of memory arbitrary) decode
identically. -/
theorem decode_depends_only_on_word
    (s1 s2 : MachineState) (m1 m2 : List Nat)
    (hip : s1.ip = s2.ip)
    (h1 : m1[s1.ip]? = m2[s1.ip]?)
    (h2 : m1[s1.ip + 1]? = m2[s1.ip + 1]?) :
    decode_instruction s1 m1 = decode_instruction s2 m2 := by
  unfold decode_instruction
  rw [h1, h2, hip]

/-- C7 witness: two states differing in every field except the program
counter, over memories agreeing only on the two fetched bytes. -/
theorem decode_depends_only_on_word_witness :
    decode_instruction ⟨0, 0, false, ⟨0⟩, fun _ => 0⟩ [0x61, 0x23] =
      decode_instruction ⟨0, 5, true, ⟨7⟩, fun _ => 9⟩ [0x61, 0x23, 0xff] :=
  decode_depends_only_on_word _ _ _ _ rfl rfl rfl

/-- C1 counterexample: the word `F107` (a documented timer instruction,
`LD V1, DT`) matches no arm of the decoder, and the decoder panics —
`Except.error (Panic.unknownOpcode ..)` models the `panic` macro, which
aborts the process — instead of returning a typed error: the source
function's return type is plain `Instruction`, not a `Result`. -/
theorem decode_unknown_opcode_aborts_at_F107 :
    decode_instruction stateAt0 [0xf1, 0x07] =
      .error (.unknownOpcode 0 0xf 0x1 0x0 0x7) := by decide

/-- C1 amended: a decode failure is a panic (process abort), not a typed
result: an unrecognized pattern (family 0xF shown here, which has no
decoder arm at all) reaches the `panic` arm whose payload carries the
offending address and the four raw nibbles, and a fetch beyond the end
of memory reaches the slice-indexing panic. -/
theorem decode_failure_panics :
    (∀ (s : MachineState) (m : List Nat) (hi lo : Nat),
        m[s.ip]? = some hi → m[s.ip + 1]? = some lo →
        (hi &&& 0xf0) >>> 4 = 0xf →
        decode_instruction s m =
          .error (.unknownOpcode s.ip 0xf (hi &&& 0x0f)
            ((lo &&& 0xf0) >>> 4) (lo &&& 0x0f))) ∧
    (∀ (s : MachineState) (m : List Nat), m.length ≤ s.ip + 1 →
        decode_instruction s m = .error .indexOutOfBounds) := by
  constructor
  · intro s m hi lo h1 h2 hfam
    simp only [decode_instruction, h1, h2]
    rw [hfam]
    unfold decode_core
    norm_num
  · intro s m h
    have h2 : m[s.ip + 1]? = none := List.getElem?_eq_none h
    cases h1 : m[s.ip]? <;> simp [decode_instruction, h1, h2]

/-- C1 amended witness: the family-0xF word `F000` panics with the
address and nibbles in the payload; fetching from empty memory panics
out of bounds. -/
theorem decode_failure_panics_witness :
    decode_instruction stateAt0 [0xf0, 0x00] =
      .error (.unknownOpcode 0 0xf 0 0 0) ∧
    decode_instruction stateAt0 [] = .error .indexOutOfBounds :=
  ⟨decode_failure_panics.1 stateAt0 [0xf0, 0x00] 0xf0 0x00 rfl rfl
      (by decide),
   decode_failure_panics.2 stateAt0 [] (by decide)⟩

/-- C2 counterexample: the documented skip-if-not-pressed word `E1A1`
reaches the decoder's failure branch, so decoding does not succeed on
every documented valid pattern. -/
theorem decode_sknp_reaches_failure :
    decode_instruction stateAt0 [0xe1, 0xa1] =
      .error (.unknownOpcode 0 0xe 0x1 0xa 0x1) := by decide

theorem regOfNat_toNat : ∀ x < 16, (regOfNat x).toNat = x := by decide

/-- C2 amended: decoding succeeds with the operands packed from the
correct nibbles for exactly the shapes the decoder implements — families
0x1-0x4, 0x6, 0x7, 0xA-0xD over all nibbles, family 0x5/0x9 with low
nibble 0, family 0x8 with its nine sub-codes, family 0x0 (see the family
0x0 theorem) and family 0xE with low byte 9E; family 0xE with low byte A1
(skip-if-not-pressed) and all of family 0xF reach the failure branch.
Bytes `0x61 0x23` decode to set-immediate on register 1 with constant
0x23. -/
theorem decode_totality_implemented :
    (∀ b < 16, ∀ c < 16, ∀ d < 16,
        decodeAt (16 * 0x1 + b) (16 * c + d) =
          .ok (.Jump ⟨256 * b + 16 * c + d⟩) ∧
        decodeAt (16 * 0x2 + b) (16 * c + d) =
          .ok (.Call ⟨256 * b + 16 * c + d⟩) ∧
        decodeAt (16 * 0x3 + b) (16 * c + d) =
          .ok (.SkipIfEqual (regOfNat b) ⟨16 * c + d⟩) ∧
        decodeAt (16 * 0x4 + b) (16 * c + d) =
          .ok (.SkipIfNotEqual (regOfNat b) ⟨16 * c + d⟩) ∧
        decodeAt (16 * 0x6 + b) (16 * c + d) =
          .ok (.SetImmediate (regOfNat b) ⟨16 * c + d⟩) ∧
        decodeAt (16 * 0x7 + b) (16 * c + d) =
          .ok (.AddImmediate (regOfNat b) ⟨16 * c + d⟩) ∧
        decodeAt (16 * 0xa + b) (16 * c + d) =
          .ok (.StoreAddress ⟨256 * b + 16 * c + d⟩) ∧
        decodeAt (16 * 0xb + b) (16 * c + d) =
          .ok (.JumpOffset ⟨256 * b + 16 * c + d⟩) ∧
        decodeAt (16 * 0xc + b) (16 * c + d) =
          .ok (.StoreRandom (regOfNat b) ⟨16 * c + d⟩) ∧
        decodeAt (16 * 0xd + b) (16 * c + d) =
          .ok (.DrawSprite (regOfNat b) (regOfNat c) ⟨d⟩) ∧
        decodeAt (16 * 0xf + b) (16 * c + d) =
          .error (.unknownOpcode 0 0xf b c d)) ∧
    (∀ b < 16, ∀ c < 16,
        decodeAt (16 * 0x5 + b) (16 * c + 0) =
          .ok (.SkipIfRegistersEqual (regOfNat b) (regOfNat c)) ∧
        decodeAt (16 * 0x8 + b) (16 * c + 0) =
          .ok (.SetRegister (regOfNat b) (regOfNat c)) ∧
        decodeAt (16 * 0x8 + b) (16 * c + 1) =
          .ok (.OrRegister (regOfNat b) (regOfNat c)) ∧
        decodeAt (16 * 0x8 + b) (16 * c + 2) =
          .ok (.AndRegister (regOfNat b) (regOfNat c)) ∧
        decodeAt (16 * 0x8 + b) (16 * c + 3) =
          .ok (.XorRegister (regOfNat b) (regOfNat c)) ∧
        decodeAt (16 * 0x8 + b) (16 * c + 4) =
          .ok (.AdcRegister (regOfNat b) (regOfNat c)) ∧
        decodeAt (16 * 0x8 + b) (16 * c + 5) =
          .ok (.SwbRegister (regOfNat b) (regOfNat c)) ∧
        decodeAt (16 * 0x8 + b) (16 * c + 6) =
          .ok (.ShrRegister (regOfNat b) (regOfNat c)) ∧
        decodeAt (16 * 0x8 + b) (16 * c + 7) =
          .ok (.ReverseSwbRegister (regOfNat b) (regOfNat c)) ∧
        decodeAt (16 * 0x8 + b) (16 * c + 0xe) =
          .ok (.ShlRegister (regOfNat b) (regOfNat c)) ∧
        decodeAt (16 * 0x9 + b) (16 * c + 0) =
          .ok (.SkipIfRegistersNotEqual (regOfNat b) (regOfNat c))) ∧
    (∀ b < 16,
        decodeAt (16 * 0xe + b) (16 * 0x9 + 0xe) =
          .ok (.SkipIfPressed (regOfNat b)) ∧
        decodeAt (16 * 0xe + b) (16 * 0xa + 0x1) =
          .error (.unknownOpcode 0 0xe b 0xa 0x1)) ∧
    decodeAt 0x61 0x23 = .ok (.SetImmediate .V1 ⟨0x23⟩) := by
  refine ⟨?_, ?_, ?_, by decide⟩
  · intro b hb c hc d hd
    refine ⟨?_, ?_, ?_, ?_, ?_, ?_, ?_, ?_, ?_, ?_, ?_⟩ <;>
      (rw [decodeAt_eq _ b c d (by norm_num) hb hc hd]
       unfold decode_core
       norm_num [regE_eq b hb, regE_eq c hc, regE_eq d hd, Except.bind,
         addr_new_eq b hb c hc d hd, const_new_eq c hc d hd,
         regOfNat_toNat d hd])
  · intro b hb c hc
    refine ⟨?_, ?_, ?_, ?_, ?_, ?_, ?_, ?_, ?_, ?_, ?_⟩ <;>
      (rw [decodeAt_eq _ b c _ (by norm_num) hb hc (by norm_num)]
       unfold decode_core
       norm_num [regE_eq b hb, regE_eq c hc, Except.bind])
  · intro b hb
    refine ⟨?_, ?_⟩ <;>
      (rw [decodeAt_eq _ b _ _ (by norm_num) hb (by norm_num) (by norm_num)]
       unfold decode_core
       norm_num [regE_eq b hb, Except.bind])

/-- C2 amended witness: instantiation at nibbles `(1, 2, 3)`. -/
theorem decode_totality_implemented_witness :
    decodeAt (16 * 0x1 + 1) (16 * 2 + 3) =
      .ok (.Jump ⟨256 * 1 + 16 * 2 + 3⟩) ∧
    decodeAt (16 * 0x5 + 1) (16 * 2 + 0) =
      .ok (.SkipIfRegistersEqual (regOfNat 1) (regOfNat 2)) ∧
    decodeAt (16 * 0xe + 1) (16 * 0x9 + 0xe) =
      .ok (.SkipIfPressed (regOfNat 1)) :=
  ⟨(decode_totality_implemented.1 1 (by decide) 2 (by decide) 3
      (by decide)).1,
   (decode_totality_implemented.2.1 1 (by decide) 2 (by decide)).1,
   (decode_totality_implemented.2.2.1 1 (by decide)).1⟩

theorem nibble_and_lt (x : Nat) : x &&& 0x0f < 16 := by
  have h : x &&& 0x0f ≤ 0x0f := Nat.and_le_right
  omega

theorem nibble_shift_lt (x : Nat) : (x &&& 0xf0) >>> 4 < 16 := by
  have h : x &&& 0xf0 ≤ 0xf0 := Nat.and_le_right
  have h2 : (x &&& 0xf0) >>> 4 = (x &&& 0xf0) / 16 := by
    rw [Nat.shiftRight_eq_div_pow]
  omega

set_option maxHeartbeats 1600000 in
theorem decode_core_no_reg_panic (ip a b c d : Nat) (ha : a < 16)
    (hb : b < 16) (hc : c < 16) (hd : d < 16) :
    decode_core ip a b c d ≠ .error .unimplementedRegister := by
  intro h
  unfold decode_core at h
  rw [regE_eq b hb, regE_eq c hc, regE_eq d hd] at h
  interval_cases a
  all_goals (try norm_num [Except.bind] at h)
  all_goals (repeat' split at h)
  all_goals simp_all

/-- C10: `Register::new` is total below 16, returning the register with
exactly that index, and the decoder can never reach its panic arm: every
register operand the decoder passes is a nibble obtained by masking with
0x0F or shifting a masked byte right by 4, hence below 16. -/
theorem register_new_total_decoder_safe :
    (∀ x < 16, Register.new x = some (regOfNat x) ∧ (regOfNat x).toNat = x)
      ∧
    ∀ (s : MachineState) (m : List Nat),
      decode_instruction s m ≠ .error .unimplementedRegister := by
  constructor
  · decide
  · intro s m
    unfold decode_instruction
    cases h1 : m[s.ip]? with
    | none => cases h2 : m[s.ip + 1]? <;> simp
    | some hi =>
      cases h2 : m[s.ip + 1]? with
      | none => simp
      | some lo =>
          exact decode_core_no_reg_panic s.ip _ _ _ _ (nibble_shift_lt hi)
            (nibble_and_lt hi) (nibble_shift_lt lo) (nibble_and_lt lo)

/-- C10 witness: `Register::new 7` yields `V7`, and a concrete decode
never reports the register panic. -/
theorem register_new_total_decoder_safe_witness :
    (Register.new 7 = some (regOfNat 7) ∧ (regOfNat 7).toNat = 7) ∧
    decode_instruction stateAt0 [0x85, 0x21] ≠
      .error .unimplementedRegister :=
  ⟨register_new_total_decoder_safe.1 7 (by decide),
   register_new_total_decoder_safe.2 stateAt0 [0x85, 0x21]⟩

/-- C9 (spec-modelled: src has no Executor): subtract-with-borrow stores
the difference wrapped modulo 256 in the destination (characterised by
the round-trip `(result + vy) % 256 = vx` together with `result < 256`)
and sets VF to 1 exactly when no borrow occurred; concretely, 10 minus 20
yields 246 with VF 0, and 20 minus 10 yields 10 with VF 1. -/
theorem execSwb_spec :
    (∀ (s : MachineState) (x y : Register),
        x.idx ≠ Register.VF.idx →
        s.registers x.idx < 256 → s.registers y.idx < 256 →
        (execSwb s x y).registers x.idx < 256 ∧
        ((execSwb s x y).registers x.idx + s.registers y.idx) % 256 =
          s.registers x.idx ∧
        ((execSwb s x y).registers Register.VF.idx = 1 ↔
          s.registers y.idx ≤ s.registers x.idx)) ∧
    ((execSwb (twoRegState 10 20) .V1 .V2).registers Register.V1.idx = 246
      ∧ (execSwb (twoRegState 10 20) .V1 .V2).registers Register.VF.idx = 0
      ∧ (execSwb (twoRegState 20 10) .V1 .V2).registers Register.V1.idx = 10
      ∧ (execSwb (twoRegState 20 10) .V1 .V2).registers Register.VF.idx = 1)
      := by
  constructor
  · intro s x y hne hx hy
    have h1 : (execSwb s x y).registers x.idx =
        (s.registers x.idx + 256 - s.registers y.idx) % 256 := by
      unfold execSwb
      simp [hne]
    have h2 : (execSwb s x y).registers Register.VF.idx =
        if s.registers y.idx ≤ s.registers x.idx then 1 else 0 := by
      unfold execSwb
      simp
    refine ⟨?_, ?_, ?_⟩
    · rw [h1]
      exact Nat.mod_lt _ (by norm_num)
    · rw [h1]
      omega
    · rw [h2]
      split_ifs with hle <;> simp [hle]
  · refine ⟨by decide, by decide, by decide, by decide⟩

/-- C9 witness: instantiation of the general part at registers holding
10 and 20. -/
theorem execSwb_spec_witness :
    ((execSwb (twoRegState 10 20) .V1 .V2).registers Register.V1.idx +
        (twoRegState 10 20).registers Register.V2.idx) % 256 =
      (twoRegState 10 20).registers Register.V1.idx :=
  (execSwb_spec.1 (twoRegState 10 20) .V1 .V2 (by decide) (by decide)
    (by decide)).2.1

theorem Register.eq_iff_toNat (r s : Register) : r = s ↔ r.toNat = s.toNat := by
  cases r <;> cases s <;> decide

theorem address_eq_iff_value (a b : Address) : a = b ↔ a.value = b.value := by
  cases a
  cases b
  simp

theorem constant_eq_iff_value (a b : Constant) : a = b ↔ a.value = b.value := by
  cases a
  cases b
  simp

theorem rhexPad_two :
    ∀ v < 256, rhexPad 2 v = [hexDigitN (v / 16), hexDigitN (v % 16)] := by
  decide

theorem rhexPad_three_nibbles :
    ∀ h < 16, ∀ l < 256, rhexPad 3 (256 * h + l) =
      [hexDigitN h, hexDigitN (l / 16), hexDigitN (l % 16)] := by
  decide

theorem rhexPad_three (v : Nat) (hv : v < 4096) :
    rhexPad 3 v =
      [hexDigitN (v / 256), hexDigitN (v / 16 % 16), hexDigitN (v % 16)] := by
  have h := rhexPad_three_nibbles (v / 256) (by omega) (v % 256) (by omega)
  rw [show 256 * (v / 256) + v % 256 = v by omega] at h
  have e1 : v % 256 / 16 = v / 16 % 16 := by omega
  have e2 : v % 256 % 16 = v % 16 := by omega
  rw [e1, e2] at h
  exact h

set_option maxHeartbeats 12000000 in
/-- C8: the canonical text rendering is injective on operations whose
operands lie in their documented ranges: two valid operations with equal
rendered text are equal. -/
theorem render_injective :
    ∀ i j : Instruction, i.Valid → j.Valid → i.render = j.render →
      i = j := by
  intro i j hi hj h
  cases i <;> cases j <;>
    simp_all [Instruction.render, Instruction.Valid, Register.render,
      Address.render, Constant.render, rhexPad_two, rhexPad_three,
      hexDigitN, Register.eq_iff_toNat, address_eq_iff_value, constant_eq_iff_value] <;>
    (try split_ifs at h) <;> omega

/-- C8 witness: instantiation at a concrete valid operation. -/
theorem render_injective_witness :
    Instruction.SetImmediate .V1 ⟨0x23⟩ = .SetImmediate .V1 ⟨0x23⟩ :=
  render_injective _ _ (by simp [Instruction.Valid])
    (by simp [Instruction.Valid]) rfl
